import Mathlib

/-!
Verification of the feed-and-engagement data-access layer of a photo-sharing
SNS application. The definitions below are a shallow embedding of the API
route handlers (likes, comment-likes, follows, posts, comments, user profile)
and of the client-side optimistic-update handlers (LikeButton, CommentList,
FollowButton with ProfileHeader). The relational store is modelled as explicit
lists with the uniqueness and foreign-key constraints of the SQL migrations;
identifiers are natural numbers.
-/

namespace SNS

abbrev ClerkId := Nat
abbrev UserId := Nat
abbrev PostId := Nat
abbrev CommentId := Nat

/-- Row of the `users` table: `id` plus the unique `clerk_id`. -/
structure UserRow where
  id : UserId
  clerkId : ClerkId
deriving DecidableEq, Repr

/-- Row of the `posts` table (fields relevant to the handlers). -/
structure PostRow where
  id : PostId
  userId : UserId
  createdAt : Nat
deriving DecidableEq, Repr

/-- Row of the `comments` table. -/
structure CommentRow where
  id : CommentId
  postId : PostId
  userId : UserId
  content : String
  createdAt : Nat
deriving DecidableEq, Repr

/-- The relational store: `likes`, `comment_likes` and `follows` are
uniqueness-constrained edge relations (the pair itself is the key). -/
structure DB where
  users : List UserRow
  posts : List PostRow
  comments : List CommentRow
  likes : List (PostId × UserId)
  commentLikes : List (CommentId × UserId)
  follows : List (UserId × UserId)
deriving DecidableEq, Repr

/-- Machine-readable error codes attached by the route handlers (the
comment-likes route attaches no code, modelled by `noCode`). -/
inductive ErrCode where
  | noCode
  | unauthorized
  | userNotFound
  | postIdRequired
  | commentIdRequired
  | followingIdRequired
  | selfFollowNotAllowed
  | addLikeError
  | addFollowError
  | contentRequired
  | contentTooLong
  | createCommentError
  | forbidden
  | commentNotFound
deriving DecidableEq, Repr

/-- Outcome of a route handler: success or a tagged failure, each with its
HTTP status. -/
inductive ApiOut where
  | ok (status : Nat)
  | err (status : Nat) (code : ErrCode)
deriving DecidableEq, Repr

/-- Lookup of the current user by Clerk id (`.eq("clerk_id", ...).single()`). -/
def findUserByClerk (db : DB) (c : ClerkId) : Option UserRow :=
  db.users.find? (fun u => u.clerkId == c)

/-- Lookup of a user by primary key. -/
def findUserById (db : DB) (i : UserId) : Option UserRow :=
  db.users.find? (fun u => u.id == i)

/-- Lookup of a post by primary key. -/
def findPostById (db : DB) (i : PostId) : Option PostRow :=
  db.posts.find? (fun p => p.id == i)

/-- Lookup of a comment by primary key. -/
def findCommentById (db : DB) (i : CommentId) : Option CommentRow :=
  db.comments.find? (fun c => c.id == i)

/-- Descending insertion keyed by `key`, used to model
`.order("created_at", { ascending: false })`. -/
def insertDesc {α : Type} (key : α → Nat) (x : α) : List α → List α
  | [] => [x]
  | y :: ys => if key x ≤ key y then y :: insertDesc key x ys else x :: y :: ys

/-- Sort a list by `key` descending. -/
def sortDesc {α : Type} (key : α → Nat) (l : List α) : List α :=
  l.foldr (insertDesc key) []

/-- POST /api/likes. The insert into `likes` hits the UNIQUE(post_id, user_id)
constraint when the edge is present, and the foreign key when the post is
absent; the handler maps every insert error to a 500 `ADD_LIKE_ERROR`. -/
def likesPOST (authId : Option ClerkId) (postId : Option PostId) (db : DB) :
    ApiOut × DB :=
  match authId with
  | none => (.err 401 .unauthorized, db)
  | some clerk =>
    match findUserByClerk db clerk with
    | none => (.err 404 .userNotFound, db)
    | some currentUser =>
      match postId with
      | none => (.err 400 .postIdRequired, db)
      | some pid =>
        if (pid, currentUser.id) ∈ db.likes then
          (.err 500 .addLikeError, db)
        else if (findPostById db pid).isNone then
          (.err 500 .addLikeError, db)
        else
          (.ok 201, { db with likes := db.likes ++ [(pid, currentUser.id)] })

/-- DELETE /api/likes: removes the matching rows; deleting zero rows is not an
error, so the handler answers 200 regardless of the prior state. -/
def likesDELETE (authId : Option ClerkId) (postId : Option PostId) (db : DB) :
    ApiOut × DB :=
  match authId with
  | none => (.err 401 .unauthorized, db)
  | some clerk =>
    match findUserByClerk db clerk with
    | none => (.err 404 .userNotFound, db)
    | some currentUser =>
      match postId with
      | none => (.err 400 .postIdRequired, db)
      | some pid =>
        (.ok 200,
          { db with likes :=
              db.likes.filter (fun e => !(e.1 == pid && e.2 == currentUser.id)) })

/-- POST /api/comment-likes: same shape as the post-like insert; every insert
error is mapped to a plain 500 response (no special case for duplicates). -/
def commentLikesPOST (authId : Option ClerkId) (commentId : Option CommentId)
    (db : DB) : ApiOut × DB :=
  match authId with
  | none => (.err 401 .noCode, db)
  | some clerk =>
    match findUserByClerk db clerk with
    | none => (.err 404 .noCode, db)
    | some currentUser =>
      match commentId with
      | none => (.err 400 .noCode, db)
      | some cid =>
        if (cid, currentUser.id) ∈ db.commentLikes then
          (.err 500 .noCode, db)
        else if (findCommentById db cid).isNone then
          (.err 500 .noCode, db)
        else
          (.ok 201,
            { db with commentLikes := db.commentLikes ++ [(cid, currentUser.id)] })

/-- DELETE /api/comment-likes. -/
def commentLikesDELETE (authId : Option ClerkId) (commentId : Option CommentId)
    (db : DB) : ApiOut × DB :=
  match authId with
  | none => (.err 401 .noCode, db)
  | some clerk =>
    match findUserByClerk db clerk with
    | none => (.err 404 .noCode, db)
    | some currentUser =>
      match commentId with
      | none => (.err 400 .noCode, db)
      | some cid =>
        (.ok 200,
          { db with commentLikes :=
              db.commentLikes.filter (fun e => !(e.1 == cid && e.2 == currentUser.id)) })

/-- POST /api/follows: rejects self-follow, checks the target user exists, and
treats a duplicate insert (Postgres unique violation 23505) as a silent
success with status 200. -/
def followsPOST (authId : Option ClerkId) (followingId : Option UserId)
    (db : DB) : ApiOut × DB :=
  match authId with
  | none => (.err 401 .unauthorized, db)
  | some clerk =>
    match findUserByClerk db clerk with
    | none => (.err 404 .userNotFound, db)
    | some currentUser =>
      match followingId with
      | none => (.err 400 .followingIdRequired, db)
      | some fid =>
        if currentUser.id == fid then
          (.err 400 .selfFollowNotAllowed, db)
        else
          match findUserById db fid with
          | none => (.err 404 .userNotFound, db)
          | some _ =>
            if (currentUser.id, fid) ∈ db.follows then
              (.ok 200, db)
            else
              (.ok 201, { db with follows := db.follows ++ [(currentUser.id, fid)] })

/-- DELETE /api/follows: removes the matching rows and answers 200; the
handler performs no self-reference check and no target-existence check. -/
def followsDELETE (authId : Option ClerkId) (followingId : Option UserId)
    (db : DB) : ApiOut × DB :=
  match authId with
  | none => (.err 401 .unauthorized, db)
  | some clerk =>
    match findUserByClerk db clerk with
    | none => (.err 404 .userNotFound, db)
    | some currentUser =>
      match followingId with
      | none => (.err 400 .followingIdRequired, db)
      | some fid =>
        (.ok 200,
          { db with follows :=
              db.follows.filter (fun e => !(e.1 == currentUser.id && e.2 == fid)) })

/-- Items of one feed page: the posts sorted by `created_at` descending, then
`.range(offset, offset + limit - 1)`, i.e. drop `offset` and take `limit`. -/
def feedItems (posts : List PostRow) (limit offset : Nat) : List PostRow :=
  ((sortDesc (fun p => p.createdAt) posts).drop offset).take limit

/-- The handler computes `count ? offset + limit < count : false`; a zero
count is falsy in JavaScript. -/
def feedHasMore (count limit offset : Nat) : Bool :=
  if count == 0 then false else decide (offset + limit < count)

/-- Next offset: `hasMore ? offset + limit : undefined`. -/
def feedNextOffset (count limit offset : Nat) : Option Nat :=
  if feedHasMore count limit offset then some (offset + limit) else none

/-- Response of GET /api/posts (status plus payload fields). -/
structure FeedPage where
  status : Nat
  posts : List PostRow
  hasMore : Bool
  nextOffset : Option Nat
deriving DecidableEq, Repr

/-- GET /api/posts: authentication, user resolution (hard 404 when the
principal has no `users` row), optional author filter, then pagination. -/
def postsGET (authId : Option ClerkId) (limit offset : Nat)
    (userIdFilter : Option UserId) (db : DB) : FeedPage :=
  match authId with
  | none => ⟨401, [], false, none⟩
  | some clerk =>
    match findUserByClerk db clerk with
    | none => ⟨404, [], false, none⟩
    | some _ =>
      let filtered :=
        match userIdFilter with
        | none => db.posts
        | some uid => db.posts.filter (fun p => p.userId == uid)
      ⟨200, feedItems filtered limit offset,
        feedHasMore filtered.length limit offset,
        feedNextOffset filtered.length limit offset⟩

/-- Client iteration over the feed: request offsets 0, limit, 2*limit, ...
until `has_more` is false; `fuel` bounds the recursion. -/
def fetchAll (posts : List PostRow) (limit : Nat) : Nat → Nat → List PostRow
  | _, 0 => []
  | offset, fuel + 1 =>
    if feedHasMore posts.length limit offset then
      feedItems posts limit offset ++ fetchAll posts limit (offset + limit) fuel
    else
      feedItems posts limit offset

/-- MIME type of an uploaded image; `other` stands for every type outside the
allowed set. -/
inductive Mime where
  | jpeg
  | png
  | webp
  | gif
  | other
deriving DecidableEq, Repr

/-- Uploaded file: `size` in bytes plus MIME type. -/
structure ImageFile where
  size : Nat
  mime : Mime
deriving DecidableEq, Repr

def MAX_FILE_SIZE : Nat := 5 * 1024 * 1024

def ALLOWED_TYPES : List Mime := [.jpeg, .png, .webp]

/-- Actions the create-post handler performs against the blob store and the
posts table, in order of execution. -/
inductive StorageAction where
  | upload
  | insertRow
  | removeBlob
deriving DecidableEq, Repr

/-- POST /api/posts: validates the MIME type then the size, uploads the blob,
inserts the row, and on insert failure removes the uploaded blob before
answering 500. `uploadOk` and `insertOk` are the outcomes of the two
external calls; the returned trace lists the attempted actions in order. -/
def postsPOST (authId : Option ClerkId) (image : Option ImageFile)
    (uploadOk insertOk : Bool) (newPost : PostRow) (db : DB) :
    ApiOut × DB × List StorageAction :=
  match authId with
  | none => (.err 401 .noCode, db, [])
  | some clerk =>
    match findUserByClerk db clerk with
    | none => (.err 404 .noCode, db, [])
    | some _ =>
      match image with
      | none => (.err 400 .noCode, db, [])
      | some img =>
        if !(ALLOWED_TYPES.contains img.mime) then
          (.err 400 .noCode, db, [])
        else if img.size > MAX_FILE_SIZE then
          (.err 400 .noCode, db, [])
        else if !uploadOk then
          (.err 500 .noCode, db, [.upload])
        else if !insertOk then
          (.err 500 .noCode, db, [.upload, .insertRow, .removeBlob])
        else
          (.ok 201, { db with posts := db.posts ++ [newPost] },
            [.upload, .insertRow])

/-- DELETE /api/posts/[postId]: resolves the caller, fetches the post (404
when absent), enforces ownership (403 when the caller is not the author),
best-effort deletes the blob, then deletes the row; the database cascades the
deletion to likes, comments and their comment-likes. -/
def postsDELETE (authId : Option ClerkId) (postId : Option PostId) (db : DB) :
    ApiOut × DB :=
  match authId with
  | none => (.err 401 .noCode, db)
  | some clerk =>
    match findUserByClerk db clerk with
    | none => (.err 404 .noCode, db)
    | some currentUser =>
      match postId with
      | none => (.err 400 .noCode, db)
      | some pid =>
        match findPostById db pid with
        | none => (.err 404 .noCode, db)
        | some post =>
          if post.userId != currentUser.id then
            (.err 403 .noCode, db)
          else
            let removedCommentIds :=
              (db.comments.filter (fun c => c.postId == pid)).map (fun c => c.id)
            (.ok 200,
              { db with
                posts := db.posts.filter (fun p => !(p.id == pid)),
                likes := db.likes.filter (fun e => !(e.1 == pid)),
                comments := db.comments.filter (fun c => !(c.postId == pid)),
                commentLikes :=
                  db.commentLikes.filter (fun e => !(removedCommentIds.contains e.1)) })

/-- Comment as returned to the client, with the derived fields. -/
structure CommentView where
  id : CommentId
  postId : PostId
  userId : UserId
  content : String
  likesCount : Nat
  isLiked : Bool
deriving DecidableEq, Repr

/-- GET /api/comments: the current user is looked up but absence is NOT an
error — `currentUserId` simply stays unset and every `is_liked` is false.
Comments of the post are sorted by `created_at` descending and paginated. -/
def commentsGET (authId : Option ClerkId) (postId : Option PostId)
    (limit offset : Nat) (db : DB) : ApiOut × List CommentView :=
  match authId with
  | none => (.err 401 .unauthorized, [])
  | some clerk =>
    let currentUserId := (findUserByClerk db clerk).map (fun u => u.id)
    match postId with
    | none => (.err 400 .postIdRequired, [])
    | some pid =>
      let rows :=
        ((sortDesc (fun c => c.createdAt)
          (db.comments.filter (fun c => c.postId == pid))).drop offset).take limit
      let views := rows.map (fun c =>
        { id := c.id
          postId := c.postId
          userId := c.userId
          content := c.content
          likesCount := (db.commentLikes.filter (fun e => e.1 == c.id)).length
          isLiked :=
            match currentUserId with
            | none => false
            | some uid => db.commentLikes.contains (c.id, uid) : CommentView })
      (.ok 200, views)

/-- JavaScript `String.prototype.trim`: strip leading and trailing
whitespace. -/
def jsTrim (s : String) : String :=
  String.mk (((s.data.dropWhile Char.isWhitespace).reverse.dropWhile
    Char.isWhitespace).reverse)

def MAX_COMMENT_LENGTH : Nat := 1000

/-- POST /api/comments: requires a resolved user; rejects content that is
empty after trimming (`CONTENT_REQUIRED`) and content whose RAW length
exceeds `MAX_COMMENT_LENGTH` (`CONTENT_TOO_LONG`); the insert stores the
trimmed content and fails (500) on the posts foreign key when the post is
absent. -/
def commentsPOST (authId : Option ClerkId) (postId : Option PostId)
    (content : Option String) (newId : CommentId) (now : Nat) (db : DB) :
    ApiOut × DB :=
  match authId with
  | none => (.err 401 .unauthorized, db)
  | some clerk =>
    match findUserByClerk db clerk with
    | none => (.err 404 .userNotFound, db)
    | some currentUser =>
      match postId with
      | none => (.err 400 .postIdRequired, db)
      | some pid =>
        match content with
        | none => (.err 400 .contentRequired, db)
        | some content =>
          if (jsTrim content).length == 0 then
            (.err 400 .contentRequired, db)
          else if content.length > MAX_COMMENT_LENGTH then
            (.err 400 .contentTooLong, db)
          else if (findPostById db pid).isNone then
            (.err 500 .createCommentError, db)
          else
            (.ok 201,
              { db with comments :=
                  db.comments ++
                    [{ id := newId, postId := pid, userId := currentUser.id,
                       content := jsTrim content, createdAt := now }] })

/-- DELETE /api/comments: fetches the comment (404 when absent), answers 403
when the caller is not the author, and otherwise deletes the row (cascading
to its comment-likes). -/
def commentsDELETE (authId : Option ClerkId) (commentId : Option CommentId)
    (db : DB) : ApiOut × DB :=
  match authId with
  | none => (.err 401 .unauthorized, db)
  | some clerk =>
    match findUserByClerk db clerk with
    | none => (.err 404 .userNotFound, db)
    | some currentUser =>
      match commentId with
      | none => (.err 400 .commentIdRequired, db)
      | some cid =>
        match findCommentById db cid with
        | none => (.err 404 .commentNotFound, db)
        | some comment =>
          if comment.userId != currentUser.id then
            (.err 403 .forbidden, db)
          else
            (.ok 200,
              { db with
                comments := db.comments.filter (fun c => !(c.id == cid)),
                commentLikes := db.commentLikes.filter (fun e => !(e.1 == cid)) })

/-- Response of GET /api/users/[userId] (the fields the claims are about). -/
structure UserProfile where
  status : Nat
  isFollowing : Bool
deriving DecidableEq, Repr

/-- GET /api/users/[userId]: the viewer lookup is optional (no error on a
missing `users` row); `is_following` is consulted only when the resolved
viewer exists and differs from the requested user, and is false otherwise. -/
def usersGET (authId : Option ClerkId) (targetId : Option UserId) (db : DB) :
    UserProfile :=
  match authId with
  | none => ⟨401, false⟩
  | some clerk =>
    let currentUserId := (findUserByClerk db clerk).map (fun u => u.id)
    match targetId with
    | none => ⟨400, false⟩
    | some uid =>
      match findUserById db uid with
      | none => ⟨404, false⟩
      | some _ =>
        let isFollowing :=
          match currentUserId with
          | none => false
          | some cur =>
            if cur != uid then db.follows.contains (cur, uid) else false
        ⟨200, isFollowing⟩

/-- Client-side state of one like toggle: the boolean flag plus the displayed
count (a JavaScript number, modelled as an integer). -/
structure CLikeState where
  isLiked : Bool
  likesCount : Int
deriving DecidableEq, Repr

/-- Optimistic step of LikeButton.handleLike: flip the flag and add or
subtract one — no flooring. -/
def likeButtonOptimistic (st : CLikeState) : CLikeState :=
  let newIsLiked := !st.isLiked
  ⟨newIsLiked, if newIsLiked then st.likesCount + 1 else st.likesCount - 1⟩

/-- LikeButton.handleLike: ignore the click while in flight, capture the
snapshot, apply the optimistic update, issue one request, and on failure
restore the snapshot. Returns the final state and the number of requests
issued. -/
def likeButtonHandleLike (isProcessing : Bool) (st : CLikeState)
    (serverOk : Bool) : CLikeState × Nat :=
  if isProcessing then (st, 0)
  else
    let snapshot := st
    let optimistic := likeButtonOptimistic st
    if serverOk then (optimistic, 1) else (snapshot, 1)

/-- Optimistic step of CommentList.handleLikeToggle: the decrement is floored
at 0 with `Math.max`. -/
def commentListOptimistic (st : CLikeState) : CLikeState :=
  ⟨!st.isLiked,
    if st.isLiked then max 0 (st.likesCount - 1) else st.likesCount + 1⟩

/-- CommentList.handleLikeToggle for one comment: in-flight guard, snapshot
capture, optimistic update, one request, rollback to the captured
`(is_liked, likes_count)` on failure. -/
def commentListHandleLikeToggle (inFlight : Bool) (st : CLikeState)
    (serverOk : Bool) : CLikeState × Nat :=
  if inFlight then (st, 0)
  else
    let isLiked := st.isLiked
    let previousLikesCount := st.likesCount
    let optimistic := commentListOptimistic st
    if serverOk then (optimistic, 1)
    else (⟨isLiked, previousLikesCount⟩, 1)

/-- Client-side follow state: FollowButton owns the flag; ProfileHeader owns
the displayed follower count. -/
structure FollowState where
  isFollowing : Bool
  followersCount : Int
deriving DecidableEq, Repr

/-- FollowButton.handleToggle composed with ProfileHeader.handleFollowToggle:
the flag is set optimistically; the count changes only through the `onToggle`
callback, which FollowButton invokes on success alone; on failure the flag is
rolled back to the captured previous state. -/
def followFlowHandleToggle (isLoading : Bool) (st : FollowState)
    (serverOk : Bool) : FollowState × Nat :=
  if isLoading then (st, 0)
  else
    let newState := !st.isFollowing
    let previousState := st.isFollowing
    if serverOk then
      (⟨newState,
        if newState then st.followersCount + 1
        else max 0 (st.followersCount - 1)⟩, 1)
    else (⟨previousState, st.followersCount⟩, 1)

theorem insertDesc_perm {α : Type} (key : α → Nat) (x : α) (l : List α) :
    (insertDesc key x l).Perm (x :: l) := by
  induction l with
  | nil => simp [insertDesc]
  | cons y ys ih =>
    by_cases h : key x ≤ key y
    · simp only [insertDesc, if_pos h]
      exact (ih.cons y).trans (List.Perm.swap x y ys)
    · simp [insertDesc, if_neg h]

theorem sortDesc_perm {α : Type} (key : α → Nat) (l : List α) :
    (sortDesc key l).Perm l := by
  induction l with
  | nil => simp [sortDesc]
  | cons x xs ih =>
    exact (insertDesc_perm key x (sortDesc key xs)).trans (ih.cons x)

theorem insertDesc_sorted {α : Type} (key : α → Nat) (x : α) (l : List α)
    (h : l.Pairwise (fun a b => key b ≤ key a)) :
    (insertDesc key x l).Pairwise (fun a b => key b ≤ key a) := by
  induction l with
  | nil => simp [insertDesc]
  | cons y ys ih =>
    rcases List.pairwise_cons.mp h with ⟨hy, hys⟩
    by_cases hxy : key x ≤ key y
    · simp only [insertDesc, if_pos hxy]
      refine List.pairwise_cons.mpr ⟨?_, ih hys⟩
      intro z hz
      rcases List.mem_cons.mp ((insertDesc_perm key x ys).mem_iff.mp hz) with
        rfl | hzys
      · exact hxy
      · exact hy z hzys
    · simp only [insertDesc, if_neg hxy]
      push_neg at hxy
      refine List.pairwise_cons.mpr ⟨?_, h⟩
      intro z hz
      rcases List.mem_cons.mp hz with rfl | hzys
      · exact le_of_lt hxy
      · exact (hy z hzys).trans (le_of_lt hxy)

theorem sortDesc_sorted {α : Type} (key : α → Nat) (l : List α) :
    (sortDesc key l).Pairwise (fun a b => key b ≤ key a) := by
  induction l with
  | nil => simp [sortDesc]
  | cons x xs ih => exact insertDesc_sorted key x (sortDesc key xs) ih

theorem sortDesc_length {α : Type} (key : α → Nat) (l : List α) :
    (sortDesc key l).length = l.length :=
  (sortDesc_perm key l).length_eq

theorem feedHasMore_eq (count limit offset : Nat) :
    feedHasMore count limit offset = decide (offset + limit < count) := by
  unfold feedHasMore
  rcases Nat.eq_zero_or_pos count with h | h
  · subst h; simp
  · have hne : (count == 0) = false := by
      simp [Nat.pos_iff_ne_zero.mp h]
    simp [hne]

theorem fetchAll_eq_drop (posts : List PostRow) (L : Nat) (hL : 1 ≤ L) :
    ∀ fuel offset, posts.length ≤ fuel + offset →
      fetchAll posts L offset fuel =
        (sortDesc (fun p => p.createdAt) posts).drop offset := by
  intro fuel
  induction fuel with
  | zero =>
    intro offset hoff
    simp only [fetchAll]
    symm
    apply List.drop_eq_nil_of_le
    rw [sortDesc_length]
    simpa using hoff
  | succ fuel ih =>
    intro offset hoff
    by_cases hmore : feedHasMore posts.length L offset = true
    · have hN : offset + L < posts.length := by
        rw [feedHasMore_eq] at hmore
        exact of_decide_eq_true hmore
      simp only [fetchAll, hmore, if_true]
      rw [ih (offset + L) (by omega)]
      unfold feedItems
      have hdd : (sortDesc (fun p => p.createdAt) posts).drop (offset + L) =
          ((sortDesc (fun p => p.createdAt) posts).drop offset).drop L := by
        rw [List.drop_drop, Nat.add_comm]
      rw [hdd, List.take_append_drop]
    · have hN : posts.length ≤ offset + L := by
        rw [feedHasMore_eq] at hmore
        have := of_decide_eq_false (Bool.not_eq_true _ ▸ hmore)
        omega
      have hmoreF : feedHasMore posts.length L offset = false :=
        Bool.not_eq_true _ ▸ hmore
      simp only [fetchAll, hmoreF, if_false, Bool.false_eq_true]
      unfold feedItems
      apply List.take_of_length_le
      rw [List.length_drop, sortDesc_length]
      omega

theorem filter_edge_eq_self (l : List (Nat × Nat)) (a b : Nat)
    (h : (a, b) ∉ l) :
    l.filter (fun e => !(e.1 == a && e.2 == b)) = l := by
  apply List.filter_eq_self.mpr
  intro e he
  have hne : e ≠ (a, b) := by
    intro hEq
    exact h (hEq ▸ he)
  cases e with
  | mk x y =>
    by_cases hx : x = a
    · by_cases hy : y = b
      · exact absurd (by rw [hx, hy]) hne
      · simp [hy]
    · simp [hx]

/-- Store with one user (id 1, clerk 10) who already likes post 5 and
comment 7. -/
def dbC1 : DB :=
  { users := [⟨1, 10⟩], posts := [⟨5, 1, 100⟩],
    comments := [⟨7, 5, 1, String.mk [], 50⟩],
    likes := [(5, 1)], commentLikes := [(7, 1)], follows := [] }

/-- Store with a single user, used for the self-unfollow scenario. -/
def dbC4 : DB :=
  { users := [⟨1, 10⟩], posts := [], comments := [], likes := [],
    commentLikes := [], follows := [] }

/-- Store where the authenticated principal (clerk 10) has no users row but a
post with comments exists. -/
def dbC5 : DB :=
  { users := [⟨2, 20⟩], posts := [⟨5, 2, 100⟩],
    comments := [⟨7, 5, 2, String.mk [], 50⟩],
    likes := [], commentLikes := [], follows := [] }

/-- Store with two users where user 2 authored post 5 and comment 7, and the
caller is user 1 (clerk 10). -/
def dbC7 : DB :=
  { users := [⟨1, 10⟩, ⟨2, 20⟩], posts := [⟨5, 2, 100⟩],
    comments := [⟨7, 5, 2, String.mk [], 50⟩],
    likes := [], commentLikes := [], follows := [] }

/-- Three posts with distinct timestamps for the pagination witness. -/
def postsW : List PostRow := [⟨1, 1, 30⟩, ⟨2, 1, 10⟩, ⟨3, 1, 20⟩]

/-- One thousand copies of the letter a followed by a space: raw length 1001,
trimmed length 1000. -/
def longContent : String := String.mk (List.replicate 1000 'a' ++ [' '])

/-- Store with one user (id 1, clerk 10) and one post (id 5). -/
def dbC9 : DB :=
  { users := [⟨1, 10⟩], posts := [⟨5, 1, 100⟩], comments := [], likes := [],
    commentLikes := [], follows := [] }

/-- C2: For every optimistic toggle (post like, comment like, follow), when
the handler is not already in flight and the server request fails (non-ok
status or transport error), the final displayed state equals the captured
snapshot exactly — the boolean flag and the derived count are both restored —
and exactly one request was issued, with no automatic retry. -/
theorem c2_rollback_restores_snapshot (st stc : CLikeState) (fs : FollowState) :
    likeButtonHandleLike false st false = (st, 1) ∧
    commentListHandleLikeToggle false stc false = (stc, 1) ∧
    followFlowHandleToggle false fs false = (fs, 1) := by
  refine ⟨rfl, ?_, ?_⟩
  · cases stc
    rfl
  · cases fs
    rfl

/-- C8 counterexample: LikeButton does not floor the optimistic decrement at
0 — with the captured state (is_liked = true, likes_count = 0) the optimistic
step displays the count -1, which is negative, refuting the claim that the
displayed count never becomes negative. -/
theorem c8_counterexample_negative_count :
    likeButtonOptimistic ⟨true, 0⟩ = ⟨false, -1⟩ ∧
    (likeButtonOptimistic ⟨true, 0⟩).likesCount < 0 := by
  constructor <;> decide

/-- C8 (amended): in the optimistic step, turning the state on adds one to
the captured count in both toggles; turning it off subtracts one, floored at
0 only in the comment-like toggle (CommentList uses Math.max(0, c - 1), so
its result is never negative), while the post-like toggle (LikeButton) uses
the unfloored c - 1 and can display a negative count. -/
theorem c8_amended_optimistic_counts (c : Int) :
    likeButtonOptimistic ⟨false, c⟩ = ⟨true, c + 1⟩ ∧
    likeButtonOptimistic ⟨true, c⟩ = ⟨false, c - 1⟩ ∧
    commentListOptimistic ⟨false, c⟩ = ⟨true, c + 1⟩ ∧
    commentListOptimistic ⟨true, c⟩ = ⟨false, max 0 (c - 1)⟩ ∧
    0 ≤ (commentListOptimistic ⟨true, c⟩).likesCount := by
  refine ⟨rfl, rfl, rfl, rfl, ?_⟩
  simp only [commentListOptimistic]
  exact le_max_left 0 (c - 1)

/-- C10: the profile read answers is_following = false whenever the resolved
viewer is the requested user or the principal has no users row, and
is_following can be true only when the resolved viewer exists, differs from
the requested user, and the follows relation contains the edge. -/
theorem c10_profile_is_following (db : DB) (clerk : ClerkId) (t : UserId) :
    ((findUserByClerk db clerk).map (fun u => u.id) = some t →
      (usersGET (some clerk) (some t) db).isFollowing = false) ∧
    (findUserByClerk db clerk = none →
      (usersGET (some clerk) (some t) db).isFollowing = false) ∧
    ((usersGET (some clerk) (some t) db).isFollowing = true →
      ∃ u, findUserByClerk db clerk = some u ∧ u.id ≠ t ∧
        (u.id, t) ∈ db.follows) := by
  cases hcu : findUserByClerk db clerk with
  | none =>
    cases ht : findUserById db t with
    | none => simp [usersGET, hcu, ht]
    | some w => simp [usersGET, hcu, ht]
  | some u =>
    cases ht : findUserById db t with
    | none => simp [usersGET, hcu, ht]
    | some w =>
      by_cases he : u.id = t
      · simp [usersGET, hcu, ht, he]
      · refine ⟨?_, ?_, ?_⟩
        · intro hmap
          have : u.id = t := by simpa using hmap
          exact absurd this he
        · intro hnone
          exact Option.noConfusion hnone
        · intro hf
          refine ⟨u, rfl, he, ?_⟩
          simp [usersGET, hcu, ht, he] at hf
          exact hf

/-- C10 witness: user 1 views their own profile in `dbC7` and
is_following is false. -/
theorem c10_witness :
    (findUserByClerk dbC7 10).map (fun u => u.id) = some 1 ∧
    (usersGET (some 10) (some 1) dbC7).isFollowing = false :=
  ⟨by decide, (c10_profile_is_following dbC7 10 1).1 (by decide)⟩

/-- C7: comment deletion (and post deletion) by an authenticated non-author
fails with 403 Forbidden and leaves the store unchanged, so the row is still
present for a subsequent read; a reference to an absent row fails with 404;
deletion proceeds only when the caller equals the author. -/
theorem c7_delete_ownership (db : DB) (clerk : ClerkId) (u : UserRow)
    (cid : CommentId) (c : CommentRow) (pid : PostId) (p : PostRow)
    (hu : findUserByClerk db clerk = some u) :
    (findCommentById db cid = some c → c.userId ≠ u.id →
      commentsDELETE (some clerk) (some cid) db = (.err 403 .forbidden, db) ∧
      c ∈ ((commentsDELETE (some clerk) (some cid) db).2).comments) ∧
    (findCommentById db cid = none →
      commentsDELETE (some clerk) (some cid) db =
        (.err 404 .commentNotFound, db)) ∧
    (findCommentById db cid = some c → c.userId = u.id →
      (commentsDELETE (some clerk) (some cid) db).1 = .ok 200 ∧
      ((commentsDELETE (some clerk) (some cid) db).2).comments =
        db.comments.filter (fun x => !(x.id == cid))) ∧
    (findPostById db pid = some p → p.userId ≠ u.id →
      postsDELETE (some clerk) (some pid) db = (.err 403 .noCode, db)) ∧
    (findPostById db pid = none →
      postsDELETE (some clerk) (some pid) db = (.err 404 .noCode, db)) := by
  refine ⟨?_, ?_, ?_, ?_, ?_⟩
  · intro hc hne
    have hbne : (c.userId != u.id) = true := by simpa using hne
    constructor
    · simp [commentsDELETE, hu, hc, hbne]
    · simp only [commentsDELETE, hu, hc, hbne, if_true]
      exact List.mem_of_find?_eq_some hc
  · intro hc
    simp [commentsDELETE, hu, hc]
  · intro hc heq
    have hbne : (c.userId != u.id) = false := by simpa using heq
    constructor
    · simp [commentsDELETE, hu, hc, hbne]
    · simp [commentsDELETE, hu, hc, hbne]
  · intro hp hne
    have hbne : (p.userId != u.id) = true := by simpa using hne
    simp [postsDELETE, hu, hp, hbne]
  · intro hp
    simp [postsDELETE, hu, hp]

/-- C7 witness: in `dbC7`, user 1 attempts to delete comment 7 authored by
user 2 and receives 403 with the comment still present. -/
theorem c7_witness :
    findUserByClerk dbC7 10 = some ⟨1, 10⟩ ∧
    findCommentById dbC7 7 = some ⟨7, 5, 2, String.mk [], 50⟩ ∧
    commentsDELETE (some 10) (some 7) dbC7 = (.err 403 .forbidden, dbC7) :=
  ⟨by decide, by decide,
    ((c7_delete_ownership dbC7 10 ⟨1, 10⟩ 7 ⟨7, 5, 2, String.mk [], 50⟩ 5
      ⟨5, 2, 100⟩ (by decide)).1 (by decide) (by decide)).1⟩

/-- C6: create-post validates the MIME type and the 5MB size bound before any
storage action; with a valid image, the blob is uploaded before the row
insert, and when the insert fails after a successful upload the handler
removes the uploaded blob and answers 500, each action attempted exactly
once. -/
theorem c6_create_post_compensation (db : DB) (clerk : ClerkId) (u : UserRow)
    (img : ImageFile) (np : PostRow)
    (hu : findUserByClerk db clerk = some u) :
    (ALLOWED_TYPES.contains img.mime = false →
      ∀ upOk insOk, postsPOST (some clerk) (some img) upOk insOk np db =
        (.err 400 .noCode, db, [])) ∧
    (img.size > MAX_FILE_SIZE →
      ∀ upOk insOk, postsPOST (some clerk) (some img) upOk insOk np db =
        (.err 400 .noCode, db, [])) ∧
    (ALLOWED_TYPES.contains img.mime = true → img.size ≤ MAX_FILE_SIZE →
      postsPOST (some clerk) (some img) true false np db =
        (.err 500 .noCode, db, [.upload, .insertRow, .removeBlob])) ∧
    (ALLOWED_TYPES.contains img.mime = true → img.size ≤ MAX_FILE_SIZE →
      postsPOST (some clerk) (some img) true true np db =
        (.ok 201, { db with posts := db.posts ++ [np] },
          [.upload, .insertRow])) := by
  refine ⟨?_, ?_, ?_, ?_⟩
  · intro hm upOk insOk
    have hm' : img.mime ∉ ALLOWED_TYPES := by simpa using hm
    simp [postsPOST, hu, hm']
  · intro hs upOk insOk
    by_cases hm : ALLOWED_TYPES.contains img.mime
    · have hm' : img.mime ∈ ALLOWED_TYPES := by simpa using hm
      have hs' : ¬ img.size ≤ MAX_FILE_SIZE := by omega
      simp [postsPOST, hu, hm', hs']
    · have hm' : img.mime ∉ ALLOWED_TYPES := by simpa using hm
      simp [postsPOST, hu, hm']
  · intro hm hs
    have hm' : img.mime ∈ ALLOWED_TYPES := by simpa using hm
    have hs' : ¬ MAX_FILE_SIZE < img.size := by omega
    simp [postsPOST, hu, hm', hs']
  · intro hm hs
    have hm' : img.mime ∈ ALLOWED_TYPES := by simpa using hm
    have hs' : ¬ MAX_FILE_SIZE < img.size := by omega
    simp [postsPOST, hu, hm', hs']

/-- C6 witness: a valid 1-byte jpeg upload whose row insert fails triggers
the compensating blob removal in `dbC4`. -/
theorem c6_witness :
    findUserByClerk dbC4 10 = some ⟨1, 10⟩ ∧
    postsPOST (some 10) (some ⟨1, .jpeg⟩) true false ⟨5, 1, 100⟩ dbC4 =
      (.err 500 .noCode, dbC4,
        [.upload, .insertRow, .removeBlob]) :=
  ⟨by decide,
    (c6_create_post_compensation dbC4 10 ⟨1, 10⟩ ⟨1, .jpeg⟩ ⟨5, 1, 100⟩
      (by decide)).2.2.1 (by decide) (by decide)⟩

/-- C1 counterexample: in `dbC1` user 1 already likes post 5 and comment 7;
issuing the add mutation again returns a 500 error (the unique-violation
insert error is not special-cased in the likes and comment-likes routes), so
the duplicate add is surfaced to the caller as an error, refuting the claim
that it returns success for every toggle. -/
theorem c1_counterexample_duplicate_add_errors :
    (5, 1) ∈ dbC1.likes ∧
    likesPOST (some 10) (some 5) dbC1 = (.err 500 .addLikeError, dbC1) ∧
    (7, 1) ∈ dbC1.commentLikes ∧
    commentLikesPOST (some 10) (some 7) dbC1 = (.err 500 .noCode, dbC1) := by
  refine ⟨?_, ?_, ?_, ?_⟩ <;> decide

/-- C1 (amended): issuing remove while the edge is absent returns success
with the state unchanged for all three toggles, and issuing add while the
edge is present is absorbed as a success (200) only by the follow toggle;
the post-like and comment-like add surface the duplicate as a 500 error
(state unchanged). -/
theorem c1_amended_toggle_idempotence (db : DB) (clerk : ClerkId) (u : UserRow)
    (pid : PostId) (cid : CommentId) (fid : UserId) (tgt : UserRow)
    (hu : findUserByClerk db clerk = some u) :
    ((pid, u.id) ∈ db.likes →
      likesPOST (some clerk) (some pid) db = (.err 500 .addLikeError, db)) ∧
    ((cid, u.id) ∈ db.commentLikes →
      commentLikesPOST (some clerk) (some cid) db = (.err 500 .noCode, db)) ∧
    (u.id ≠ fid → findUserById db fid = some tgt → (u.id, fid) ∈ db.follows →
      followsPOST (some clerk) (some fid) db = (.ok 200, db)) ∧
    ((pid, u.id) ∉ db.likes →
      likesDELETE (some clerk) (some pid) db = (.ok 200, db)) ∧
    ((cid, u.id) ∉ db.commentLikes →
      commentLikesDELETE (some clerk) (some cid) db = (.ok 200, db)) ∧
    ((u.id, fid) ∉ db.follows →
      followsDELETE (some clerk) (some fid) db = (.ok 200, db)) := by
  refine ⟨?_, ?_, ?_, ?_, ?_, ?_⟩
  · intro hmem
    simp [likesPOST, hu, hmem]
  · intro hmem
    simp [commentLikesPOST, hu, hmem]
  · intro hne htgt hmem
    have hbeq : (u.id == fid) = false := by simpa using hne
    simp [followsPOST, hu, hbeq, htgt, hmem]
  · intro hmem
    simp only [likesDELETE, hu]
    rw [filter_edge_eq_self db.likes pid u.id hmem]
  · intro hmem
    simp only [commentLikesDELETE, hu]
    rw [filter_edge_eq_self db.commentLikes cid u.id hmem]
  · intro hmem
    simp only [followsDELETE, hu]
    rw [filter_edge_eq_self db.follows u.id fid hmem]

/-- C1 witness: in `dbC1` user 1 already follows nobody; removing an absent
post like and adding a duplicate follow behave as the amended claim states
in `dbC7` extended with a follow edge. -/
theorem c1_witness :
    findUserByClerk dbC4 10 = some ⟨1, 10⟩ ∧
    (5, 1) ∉ dbC4.likes ∧
    likesDELETE (some 10) (some 5) dbC4 = (.ok 200, dbC4) :=
  ⟨by decide, by decide,
    (c1_amended_toggle_idempotence dbC4 10 ⟨1, 10⟩ 5 7 2 ⟨1, 10⟩
      (by decide)).2.2.2.1 (by decide)⟩

/-- C4 counterexample: the unfollow direction performs no self-reference
check — user 1 unfollowing themselves in `dbC4` answers success 200, not the
SelfFollowNotAllowed failure the claim requires regardless of desired
state. -/
theorem c4_counterexample_self_unfollow_succeeds :
    followsDELETE (some 10) (some 1) dbC4 = (.ok 200, dbC4) ∧
    (followsDELETE (some 10) (some 1) dbC4).1 ≠
      ApiOut.err 400 ErrCode.selfFollowNotAllowed := by
  constructor <;> decide

/-- C4 (amended): the follow (add) direction rejects a self-follow with
SelfFollowNotAllowed regardless of the prior state of the edge and checks
that the target user exists, failing with UserNotFound otherwise; the
unfollow direction performs neither check, so a self-unfollow returns
success. -/
theorem c4_amended_self_follow (db : DB) (clerk : ClerkId) (u : UserRow)
    (fid : UserId) (hu : findUserByClerk db clerk = some u) :
    (u.id = fid → followsPOST (some clerk) (some fid) db =
      (.err 400 .selfFollowNotAllowed, db)) ∧
    (u.id ≠ fid → findUserById db fid = none →
      followsPOST (some clerk) (some fid) db = (.err 404 .userNotFound, db)) ∧
    ((followsDELETE (some clerk) (some fid) db).1 = .ok 200) := by
  refine ⟨?_, ?_, ?_⟩
  · intro heq
    simp [followsPOST, hu, heq]
  · intro hne htgt
    have hbeq : (u.id == fid) = false := by simpa using hne
    simp [followsPOST, hu, hbeq, htgt]
  · simp [followsDELETE, hu]

/-- C4 witness: in `dbC4` user 1 self-follows and is rejected. -/
theorem c4_witness :
    findUserByClerk dbC4 10 = some ⟨1, 10⟩ ∧
    followsPOST (some 10) (some 1) dbC4 =
      (.err 400 .selfFollowNotAllowed, dbC4) :=
  ⟨by decide,
    (c4_amended_self_follow dbC4 10 ⟨1, 10⟩ 1 (by decide)).1 rfl⟩

/-- C5 counterexample: with the principal (clerk 10) having no users row in
`dbC5`, the comment list read succeeds with status 200 instead of failing
with UserNotFound, refuting the claim that every core operation fails in
that situation. -/
theorem c5_counterexample_comments_read_succeeds :
    findUserByClerk dbC5 10 = none ∧
    (commentsGET (some 10) (some 5) 10 0 dbC5).1 = ApiOut.ok 200 := by
  constructor <;> decide

/-- C5 (amended): when the authenticated principal has no users row, the
feed read, every engagement mutation, comment creation and both deletions
fail with 404 user-not-found and leave the store untouched (no implicit User
creation); the comment list read and the profile read instead proceed,
treating the viewer as anonymous: they succeed with every is_liked false and
is_following false. -/
theorem c5_amended_user_resolution (db : DB) (clerk : ClerkId)
    (h : findUserByClerk db clerk = none) :
    (∀ limit offset f, (postsGET (some clerk) limit offset f db).status = 404) ∧
    (∀ pid, likesPOST (some clerk) pid db = (.err 404 .userNotFound, db)) ∧
    (∀ cid, commentLikesPOST (some clerk) cid db = (.err 404 .noCode, db)) ∧
    (∀ fid, followsPOST (some clerk) fid db = (.err 404 .userNotFound, db)) ∧
    (∀ pid content nid now, commentsPOST (some clerk) pid content nid now db =
      (.err 404 .userNotFound, db)) ∧
    (∀ cid, commentsDELETE (some clerk) cid db =
      (.err 404 .userNotFound, db)) ∧
    (∀ pid, postsDELETE (some clerk) pid db = (.err 404 .noCode, db)) ∧
    (∀ pid limit offset,
      (commentsGET (some clerk) (some pid) limit offset db).1 = .ok 200 ∧
      ∀ v ∈ (commentsGET (some clerk) (some pid) limit offset db).2,
        v.isLiked = false) ∧
    (∀ t, (usersGET (some clerk) (some t) db).isFollowing = false) := by
  refine ⟨?_, ?_, ?_, ?_, ?_, ?_, ?_, ?_, ?_⟩
  · intro limit offset f
    simp [postsGET, h]
  · intro pid
    simp [likesPOST, h]
  · intro cid
    simp [commentLikesPOST, h]
  · intro fid
    simp [followsPOST, h]
  · intro pid content nid now
    simp [commentsPOST, h]
  · intro cid
    simp [commentsDELETE, h]
  · intro pid
    simp [postsDELETE, h]
  · intro pid limit offset
    constructor
    · simp [commentsGET, h]
    · intro v hv
      simp only [commentsGET, h, Option.map_none] at hv
      rcases List.mem_map.mp hv with ⟨c, _, rfl⟩
      rfl
  · intro t
    cases ht : findUserById db t with
    | none => simp [usersGET, h, ht]
    | some w => simp [usersGET, h, ht]

/-- C5 witness: in `dbC5` the unresolved principal's post-like mutation
fails with 404 and the store is unchanged. -/
theorem c5_witness :
    findUserByClerk dbC5 10 = none ∧
    likesPOST (some 10) (some 5) dbC5 = (.err 404 .userNotFound, dbC5) :=
  ⟨by decide, (c5_amended_user_resolution dbC5 10 (by decide)).2.1 (some 5)⟩

/-- C3: for a fixed set of posts with pairwise distinct created_at and limit
L at least 1, a feed page at offset k has has_more exactly when k + L is less
than the total count, next_offset = k + L exactly when has_more, an offset at
or beyond the count yields empty items with has_more false, every page is
strictly ordered by created_at descending, and iterating offsets 0, L, 2L,
... until has_more is false yields every post exactly once (a permutation of
the posts), strictly ordered by created_at descending. -/
theorem c3_feed_pagination (posts : List PostRow) (L k fuel : Nat)
    (hL : 1 ≤ L)
    (hdist : posts.Pairwise (fun a b => a.createdAt ≠ b.createdAt))
    (hfuel : posts.length ≤ fuel) :
    (feedHasMore posts.length L k = true ↔ k + L < posts.length) ∧
    feedNextOffset posts.length L k =
      (if k + L < posts.length then some (k + L) else none) ∧
    (posts.length ≤ k →
      feedItems posts L k = [] ∧ feedHasMore posts.length L k = false) ∧
    (feedItems posts L k).Pairwise (fun a b => b.createdAt < a.createdAt) ∧
    (fetchAll posts L 0 fuel).Perm posts ∧
    (fetchAll posts L 0 fuel).Pairwise
      (fun a b => b.createdAt < a.createdAt) := by
  have hperm := sortDesc_perm (fun p => p.createdAt) posts
  have hle := sortDesc_sorted (fun p => p.createdAt) posts
  have hnes : (sortDesc (fun p => p.createdAt) posts).Pairwise
      (fun a b => a.createdAt ≠ b.createdAt) :=
    (hperm.pairwise_iff (fun h => Ne.symm h)).mpr hdist
  have hlt : (sortDesc (fun p => p.createdAt) posts).Pairwise
      (fun a b => b.createdAt < a.createdAt) :=
    (hle.and hnes).imp (fun h => lt_of_le_of_ne h.1 (Ne.symm h.2))
  have hfa : fetchAll posts L 0 fuel =
      sortDesc (fun p => p.createdAt) posts := by
    have h := fetchAll_eq_drop posts L hL fuel 0 (by omega)
    simpa using h
  refine ⟨?_, ?_, ?_, ?_, ?_, ?_⟩
  · simp [feedHasMore_eq]
  · unfold feedNextOffset
    rw [feedHasMore_eq]
    by_cases h : k + L < posts.length
    · simp [h]
    · simp [h]
  · intro hk
    constructor
    · unfold feedItems
      have hnil : (sortDesc (fun p => p.createdAt) posts).drop k = [] := by
        apply List.drop_eq_nil_of_le
        rw [sortDesc_length]
        exact hk
      rw [hnil, List.take_nil]
    · rw [feedHasMore_eq]
      simp
      omega
  · unfold feedItems
    exact hlt.sublist ((List.take_sublist _ _).trans (List.drop_sublist _ _))
  · rw [hfa]
    exact hperm
  · rw [hfa]
    exact hlt

/-- C3 witness: three posts with distinct timestamps, limit 2, exhausted in
two pages of the iteration. -/
theorem c3_witness :
    1 ≤ 2 ∧ postsW.Pairwise (fun a b => a.createdAt ≠ b.createdAt) ∧
    postsW.length ≤ 3 ∧
    (feedHasMore postsW.length 2 0 = true ↔ 0 + 2 < postsW.length) ∧
    (fetchAll postsW 2 0 3).Perm postsW :=
  ⟨by decide, by decide, by decide,
    (c3_feed_pagination postsW 2 0 3 (by decide) (by decide) (by decide)).1,
    (c3_feed_pagination postsW 2 0 3 (by decide) (by decide)
      (by decide)).2.2.2.2.1⟩

set_option maxRecDepth 40000 in
/-- C9 counterexample: the handler checks the RAW length against 1000, so
`longContent`, whose trimmed length is 1000 (within the claimed 1..1000
acceptance range), is rejected with CONTENT_TOO_LONG instead of being
accepted. -/
theorem c9_counterexample_raw_length_check :
    1 ≤ (jsTrim longContent).length ∧
    (jsTrim longContent).length ≤ MAX_COMMENT_LENGTH ∧
    (commentsPOST (some 10) (some 5) (some longContent) 9 60 dbC9).1 =
      ApiOut.err 400 ErrCode.contentTooLong := by
  refine ⟨?_, ?_, ?_⟩ <;> decide

/-- C9 (amended): comment creation fails with ContentRequired when the
content is empty after trimming and with ContentTooLong when the RAW
(untrimmed) content length exceeds 1000; content that is non-empty after
trimming and whose raw length is at most 1000 is accepted, the validation
happens before the insert (the errors occur with the store untouched,
whether or not the post exists), and the stored content is the trimmed
content. -/
theorem c9_amended_comment_validation (db : DB) (clerk : ClerkId) (u : UserRow)
    (pid : PostId) (content : String) (nid : CommentId) (now : Nat)
    (hu : findUserByClerk db clerk = some u) :
    ((jsTrim content).length = 0 →
      commentsPOST (some clerk) (some pid) (some content) nid now db =
        (.err 400 .contentRequired, db)) ∧
    ((jsTrim content).length ≠ 0 → content.length > MAX_COMMENT_LENGTH →
      commentsPOST (some clerk) (some pid) (some content) nid now db =
        (.err 400 .contentTooLong, db)) ∧
    ((jsTrim content).length ≠ 0 → content.length ≤ MAX_COMMENT_LENGTH →
      ∀ p, findPostById db pid = some p →
        commentsPOST (some clerk) (some pid) (some content) nid now db =
          (.ok 201, { db with comments := db.comments ++
            [{ id := nid, postId := pid, userId := u.id,
               content := jsTrim content, createdAt := now }] })) := by
  refine ⟨?_, ?_, ?_⟩
  · intro h0
    simp [commentsPOST, hu, h0]
  · intro hne hlong
    have hgt : MAX_COMMENT_LENGTH < content.length := hlong
    simp [commentsPOST, hu, hne, hgt]
  · intro hne hlen p hp
    have hgt : ¬ MAX_COMMENT_LENGTH < content.length := by omega
    simp [commentsPOST, hu, hne, hgt, hp]

/-- C9 witness: the two-letter content hi is accepted and stored trimmed. -/
theorem c9_witness :
    findUserByClerk dbC9 10 = some ⟨1, 10⟩ ∧
    (jsTrim (String.mk ['h', 'i'])).length ≠ 0 ∧
    commentsPOST (some 10) (some 5) (some (String.mk ['h', 'i'])) 9 60 dbC9 =
      (.ok 201, { dbC9 with comments := dbC9.comments ++
        [{ id := 9, postId := 5, userId := 1,
           content := jsTrim (String.mk ['h', 'i']), createdAt := 60 }] }) :=
  ⟨by decide, by decide,
    (c9_amended_comment_validation dbC9 10 ⟨1, 10⟩ 5 (String.mk ['h', 'i'])
      9 60 (by decide)).2.2 (by decide) (by decide) ⟨5, 1, 100⟩ (by decide)⟩

end SNS
